import Mathlib

/-!
# Verification of the PDF-to-Excel hierarchical parser (`convert_clean.py`)

This file gives a shallow embedding of the core of `convert_clean.py`:

* `extract_text_from_pdf` — modelled over an abstract document (pages of
  positioned text blocks), mirroring the block sort and per-block `strip()`;
* `parse_text_to_dataframe` — the stateful line classifier / hierarchy state
  machine / data-row decoder, including the three header regexes, the data-row
  regex, the fallback numeric-code heuristic and the emission guard;
* `save_to_excel` / `convert_pdf_to_excel` — the conversion entry point with
  its failure messages, the save step modelled as exception-swallowing.

Lines are modelled as `List Char`.  Python string operations (`strip`,
`split(maxsplit=1)`, `split('\n')`, `in`, `isdigit`) are defined over
`List Char` with Python's ASCII whitespace set; the regexes `\d`, `\w`, `\s`
are modelled at their ASCII meaning (the documents handled are ASCII).  Each
regex of the source is compiled by hand into a deterministic function whose
result agrees with Python's leftmost, greedy, backtracking `re.match`
semantics on newline-free lines (the parser only ever matches lines produced
by splitting on `'\n'`, so no line contains a newline).
-/

/-- Python's whitespace characters (`str.strip`, `str.split()`, regex `\s`),
at their ASCII core: space, tab, newline, carriage return, form feed,
vertical tab. -/
def pyIsSpace (c : Char) : Bool :=
  c == ' ' || c == '\t' || c == '\n' || c == '\r' || c == '\x0c' || c == '\x0b'

/-- Python `str.strip()` on a list of characters: drop leading and trailing
whitespace. -/
def pyStrip (l : List Char) : List Char :=
  ((l.dropWhile pyIsSpace).reverse.dropWhile pyIsSpace).reverse

/-- Python `str.split(maxsplit=1)` (whitespace separator): strip leading
whitespace; empty string gives `[]`; otherwise the first whitespace-free
token, and, when anything follows the whitespace run after it, the remainder
(with the separating run removed, trailing whitespace kept). -/
def pySplitMax1 (l : List Char) : List (List Char) :=
  let s := l.dropWhile pyIsSpace
  if s.isEmpty then []
  else
    let tok := s.takeWhile (fun c => !pyIsSpace c)
    let rest := (s.dropWhile (fun c => !pyIsSpace c)).dropWhile pyIsSpace
    if rest.isEmpty then [tok] else [tok, rest]

/-- Python `str.isdigit()` at its ASCII core: non-empty and all decimal
digits. -/
def pyIsdigitStr (l : List Char) : Bool :=
  !l.isEmpty && l.all Char.isDigit

/-- Python `text.split('\n')`. -/
def splitNl : List Char → List (List Char)
  | [] => [[]]
  | c :: rest =>
    if c == '\n' then [] :: splitNl rest
    else
      match splitNl rest with
      | [] => [[c]]
      | h :: t => (c :: h) :: t

/-- Convenience: a string literal as a list of characters. -/
def s2l (s : String) : List Char := s.data

/-- `l₂` starts with `l₁` (prefix test on characters). -/
def startsWithL : List Char → List Char → Bool
  | _, [] => true
  | [], _ :: _ => false
  | c :: cs, p :: ps => c == p && startsWithL cs ps

/-- Python's substring test `p in s`. -/
def containsL : List Char → List Char → Bool
  | [], p => p.isEmpty
  | c :: cs, p => startsWithL (c :: cs) p || containsL cs p

/-- Regex `\w` at its ASCII core: letters, digits, underscore. -/
def wordChar (c : Char) : Bool := c.isAlphanum || c == '_'

/-- `level1_pattern = ^\d{3}\s+.*`: three digits then at least one
whitespace character (the trailing `\s+.*` matches whenever one whitespace
character is present). -/
def level1_match : List Char → Bool
  | a :: b :: c :: d :: _ => a.isDigit && b.isDigit && c.isDigit && pyIsSpace d
  | _ => false

/-- The `\d+\s+.*` tail of the level-2 regex: a non-empty digit run whose
first following character is whitespace.  (Backtracking the greedy `\d+`
cannot help: every character it gives back is a digit, which `\s` rejects.) -/
def digitsThenSpace (l : List Char) : Bool :=
  match l with
  | [] => false
  | c :: _ =>
    c.isDigit &&
      match l.dropWhile Char.isDigit with
      | [] => false
      | w :: _ => pyIsSpace w

/-- `level2_pattern = ^\d{3}\.\d+\s+.*`. -/
def level2_match : List Char → Bool
  | a :: b :: c :: d :: rest =>
    a.isDigit && b.isDigit && c.isDigit && d == '.' && digitsThenSpace rest
  | _ => false

/-- `level3_pattern = ^\d{4}\s+.*`: four digits then at least one whitespace
character. -/
def level3_match : List Char → Bool
  | a :: b :: c :: d :: e :: _ =>
    a.isDigit && b.isDigit && c.isDigit && d.isDigit && pyIsSpace e
  | _ => false

/-!
## The data-row regex

`data_pattern = ^(CADT\w+)?\s*-\s*(\d{8,})?\s*_?\s*X\s*_?\s*(.*)`.

The deterministic decomposition below agrees with Python's backtracking
search:

* `(CADT\w+)?` is tried with the greedy maximal word-character run first;
  giving back word characters can never help, because the following `\s*-`
  needs a `-` where a given-back word character sits.  The group-absent
  alternative requires `-` as the first non-whitespace character, which is
  incompatible with a line starting `CADT`, so the two alternatives never
  interfere.
* `(\d{8,})?` takes the maximal digit run when it has length ≥ 8; a shorter
  run leaves a digit where the continuation needs whitespace, `_` or `X`,
  so backtracking inside the run is useless; if the group (or the
  continuation after it) fails, the group-absent continuation is tried at
  the start of the digit run.
* `\s*_?\s*X` matches `X`, or `_` then whitespace then `X`, after skipping
  whitespace; nothing else can stand between.
* after the `X`, the greedy `\s*_?\s*` skips whitespace, at most one `_`,
  and whitespace again; `(.*)` captures the rest of the (newline-free) line.
-/

/-- The `\s*_?\s*(.*)` suffix after the literal `X`: the captured group 3. -/
def dataAfterX (tail : List Char) : List Char :=
  match tail.dropWhile pyIsSpace with
  | '_' :: t2 => t2.dropWhile pyIsSpace
  | t => t

/-- The `\s*_?\s*X\s*_?\s*(.*)` continuation; `some g3` on a match. -/
def dataCont (s : List Char) : Option (List Char) :=
  match s.dropWhile pyIsSpace with
  | 'X' :: tail => some (dataAfterX tail)
  | '_' :: tail =>
    match tail.dropWhile pyIsSpace with
    | 'X' :: tail2 => some (dataAfterX tail2)
    | _ => none
  | _ => none

/-- The part after the literal `-`: `\s*(\d{8,})?` then the continuation.
`g1` is the already-captured group 1 (empty when the group was absent). -/
def dataAfterDash (g1 tail : List Char) :
    Option (List Char × List Char × List Char) :=
  let q := tail.dropWhile pyIsSpace
  let digits := q.takeWhile Char.isDigit
  if 8 ≤ digits.length then
    match dataCont (q.dropWhile Char.isDigit) with
    | some g3 => some (g1, digits, g3)
    | none => (dataCont q).map fun g3 => (g1, [], g3)
  else
    (dataCont q).map fun g3 => (g1, [], g3)

/-- The `(CADT\w+)?`-absent alternative: `\s*-` then the rest. -/
def dataNoG1 (l : List Char) : Option (List Char × List Char × List Char) :=
  match l.dropWhile pyIsSpace with
  | '-' :: tail => dataAfterDash [] tail
  | _ => none

/-- `data_pattern.match(line).groups()`, with `None` groups already replaced
by the empty string (as lines 106–107 of the source do). -/
def data_pattern_match (l : List Char) :
    Option (List Char × List Char × List Char) :=
  match l with
  | 'C' :: 'A' :: 'D' :: 'T' :: rest =>
    let run := rest.takeWhile wordChar
    if run.isEmpty then dataNoG1 l
    else
      match (rest.dropWhile wordChar).dropWhile pyIsSpace with
      | '-' :: tail => dataAfterDash ('C' :: 'A' :: 'D' :: 'T' :: run) tail
      | _ => dataNoG1 l
  | _ => dataNoG1 l

/-- The hierarchy context carried across lines (the four `current_*` state
variables of `parse_text_to_dataframe`). -/
structure ParseState where
  current_level_1 : List Char
  current_level_2 : List Char
  current_level_3_code : List Char
  current_level_3_desc : List Char
deriving Repr, DecidableEq

/-- One output row (`data.append([...])`, columns Level 1, Level 2,
Level 3 Code, Level 3, ID, Numeric_Code, Description). -/
structure Record where
  level1 : List Char
  level2 : List Char
  level3Code : List Char
  level3Desc : List Char
  id : List Char
  numericCode : List Char
  description : List Char
deriving Repr, DecidableEq

/-- The header-text extraction
`line.split(maxsplit=1)[1] if len(line.split(maxsplit=1)) > 1 else line`. -/
def level_text (line : List Char) : List Char :=
  match pySplitMax1 line with
  | [_, r] => r
  | _ => line

/-- The fallback numeric-code heuristic (source lines 111–115): when the id
is present and the numeric code empty, split the description once; when that
yields two parts whose first is all digits of length ≥ 8, promote it.
Returns the (numeric_code, description) pair after the heuristic. -/
def numeric_heuristic (numeric_code description : List Char) :
    List Char × List Char :=
  match pySplitMax1 description with
  | [t, r] =>
    if pyIsdigitStr t && decide (8 ≤ t.length) then (t, r)
    else (numeric_code, description)
  | _ => (numeric_code, description)

/-- The data-row branch of the loop body (source lines 101–127): match the
data pattern, strip the description, apply the heuristic, and emit a row
only when id or numeric code is non-empty. -/
def decode_data_row (st : ParseState) (line : List Char) : Option Record :=
  match data_pattern_match line with
  | none => none
  | some (g1, g2, g3) =>
    let id_code := g1
    let description := pyStrip g3
    let p :=
      if !id_code.isEmpty && g2.isEmpty then numeric_heuristic g2 description
      else (g2, description)
    if !id_code.isEmpty || !p.1.isEmpty then
      some ⟨st.current_level_1, st.current_level_2, st.current_level_3_code,
            st.current_level_3_desc, id_code, p.1, p.2⟩
    else none

/-- Skip markers of source line 82, fixed in the code. -/
def pageMarker : List Char := s2l "PAGE"

/-- Second fixed skip marker of source line 82. -/
def deloitteMarker : List Char := s2l "Deloitte India Management Reporting"

/-- The body of the `for line in lines` loop: strip, skip, classify in the
source's precedence order, update the state, possibly emit a record.
(The `_` fallback of the level-3 branch is unreachable: a non-empty stripped
line always splits into at least one part.) -/
def processLine (st : ParseState) (raw : List Char) :
    ParseState × Option Record :=
  let line := pyStrip raw
  if line.isEmpty || containsL line pageMarker || containsL line deloitteMarker then
    (st, none)
  else if level1_match line && !level2_match line && !level3_match line then
    (⟨level_text line, [], [], []⟩, none)
  else if level2_match line then
    (⟨st.current_level_1, level_text line, [], []⟩, none)
  else if level3_match line then
    match pySplitMax1 line with
    | [t] => (⟨st.current_level_1, st.current_level_2, t, []⟩, none)
    | [t, r] => (⟨st.current_level_1, st.current_level_2, t, r⟩, none)
    | _ => (⟨st.current_level_1, st.current_level_2, [], []⟩, none)
  else
    (st, decode_data_row st line)

/-- The `for` loop over the lines, threading the state and accumulating the
emitted rows in order. -/
def parseLoop (st : ParseState) : List (List Char) → List Record
  | [] => []
  | l :: ls =>
    match processLine st l with
    | (st2, some r) => r :: parseLoop st2 ls
    | (st2, none) => parseLoop st2 ls

/-- `parse_text_to_dataframe`: split the text on newlines and run the loop
from the all-empty initial context; the result is the ordered row list of
the returned DataFrame. -/
def parse_text_to_dataframe (text : List Char) : List Record :=
  parseLoop ⟨[], [], [], []⟩ (splitNl text)

/-!
## The text extractor (`extract_text_from_pdf`)

The PDF library is external; a readable document is modelled as its pages
in document order, each page the list of text blocks the library returns,
a block carrying its left (`b[0]`) and top (`b[1]`) coordinates and its
text (`b[4]`).  Coordinates are modelled as integers (the sort only uses
their order).  The code sorts each page's blocks by top then left
coordinate and appends `b[4].strip()` for every block — with no emptiness
check — then joins everything with newlines. -/
structure Block where
  x0 : Int
  y0 : Int
  text : List Char
deriving Repr, DecidableEq

/-- The sort key of source line 41: `(b[1], b[0])`, i.e. top coordinate
then left coordinate, lexicographically. -/
def blockLE (a b : Block) : Bool :=
  decide (a.y0 < b.y0) || (decide (a.y0 = b.y0) && decide (a.x0 ≤ b.x0))

/-- The fragment sequence built by `extract_text_from_pdf` (the successive
`full_text.append(b[4].strip())` of source lines 37–43): pages in order,
each page's blocks sorted by `(top, left)`, each block contributing its
stripped text.  (Python's sort is stable, as is `List.mergeSort`.) -/
def extract_fragments : List (List Block) → List (List Char)
  | [] => []
  | page :: rest =>
    (page.mergeSort blockLE).map (fun b => pyStrip b.text) ++ extract_fragments rest

/-- The string `extract_text_from_pdf` returns on a readable document:
`"\n".join(full_text)`. -/
def extract_text_from_pdf (doc : List (List Block)) : List Char :=
  List.intercalate ['\n'] (extract_fragments doc)

/-!
## Conversion glue (`save_to_excel`, `convert_pdf_to_excel`)

File I/O is external; `convert_pdf_to_excel` is modelled over the result of
its extraction step (`none` for the `None` the extractor returns on a
missing/unreadable file, `some text` otherwise) and over the outcome the
spreadsheet write would have (`Except.error e` when `to_excel` raises
`e`). -/

/-- Source line 167: `"Failed to extract text from the PDF."`. -/
def msgExtractFail : List Char := s2l "Failed to extract text from the PDF."

/-- Source line 173: `"Could not parse any structured data from the PDF."`. -/
def msgNoData : List Char := s2l "Could not parse any structured data from the PDF."

/-- Source lines 147 and 177: the success message, carrying the output
path. -/
def msgSuccess (excel_path : List Char) : List Char :=
  s2l "Successfully converted PDF to Excel file: '" ++ excel_path ++ s2l "'"

/-- Source line 149: the message printed when the write raises. -/
def msgSaveError (e : List Char) : List Char :=
  s2l "An error occurred while saving to Excel: " ++ e

/-- `save_to_excel`: attempt the write, catch any exception, print a
message either way; the function always returns normally (the exception is
swallowed), so it is total and its value is just the printed line. -/
def save_to_excel (excel_path : List Char) (writeOutcome : Except (List Char) Unit) :
    List Char :=
  match writeOutcome with
  | Except.ok _ => msgSuccess excel_path
  | Except.error e => msgSaveError e

/-- `convert_pdf_to_excel` as a function of the extraction result and the
write outcome: `None` or empty text fails with `msgExtractFail` (the
`if not raw_text` of line 166 treats `None` and `""` alike); an empty
parsed table fails with `msgNoData`; otherwise the save step runs — its
outcome discarded — and the function returns success. -/
def convert_pdf_to_excel (raw_text : Option (List Char))
    (writeOutcome : Except (List Char) Unit) (excel_path : List Char) :
    Bool × List Char :=
  match raw_text with
  | none => (false, msgExtractFail)
  | some t =>
    if t.isEmpty then (false, msgExtractFail)
    else if (parse_text_to_dataframe t).isEmpty then (false, msgNoData)
    else
      let _ := save_to_excel excel_path writeOutcome
      (true, msgSuccess excel_path)

/-!
## Helper lemmas
-/

theorem dropWhile_head_false {α : Type} (p : α → Bool) :
    ∀ {l : List α} {c : α} {cs : List α}, l.dropWhile p = c :: cs → p c = false := by
  intro l
  induction l with
  | nil => intro c cs h; simp [List.dropWhile] at h
  | cons a as ih =>
    intro c cs h
    by_cases hp : p a
    · rw [List.dropWhile_cons_of_pos hp] at h
      exact ih h
    · rw [List.dropWhile_cons_of_neg hp] at h
      injection h with h1 _
      subst h1
      exact Bool.eq_false_iff.mpr hp

theorem dropWhile_idem {α : Type} (p : α → Bool) (l : List α) :
    (l.dropWhile p).dropWhile p = l.dropWhile p := by
  cases h : l.dropWhile p with
  | nil => simp
  | cons c cs =>
    rw [List.dropWhile_cons_of_neg]
    simp [dropWhile_head_false p h]

theorem dropWhile_suffix_exists {α : Type} (p : α → Bool) :
    ∀ l : List α, ∃ t, l = t ++ l.dropWhile p := by
  intro l
  induction l with
  | nil => exact ⟨[], rfl⟩
  | cons a as ih =>
    by_cases hp : p a
    · obtain ⟨t, ht⟩ := ih
      refine ⟨a :: t, ?_⟩
      rw [List.dropWhile_cons_of_pos hp]
      exact congrArg (a :: ·) ht
    · refine ⟨[], ?_⟩
      rw [List.dropWhile_cons_of_neg hp]
      rfl

theorem dropWhile_reverse_dropWhile {p : Char → Bool} {m : List Char}
    (hm : m.dropWhile p = m) :
    ((m.reverse.dropWhile p).reverse).dropWhile p = (m.reverse.dropWhile p).reverse := by
  obtain ⟨t, ht⟩ := dropWhile_suffix_exists p m.reverse
  cases hrv : (m.reverse.dropWhile p).reverse with
  | nil => simp [hrv]
  | cons c cs =>
    have hm2 : m = (m.reverse.dropWhile p).reverse ++ t.reverse := by
      have h := congrArg List.reverse ht
      simpa using h
    have hmc : m = c :: (cs ++ t.reverse) := by
      rw [hm2, hrv]; rfl
    have hc : p c = false := by
      rw [hmc] at hm
      by_cases hp : p c
      · rw [List.dropWhile_cons_of_pos hp] at hm
        have hlen := congrArg List.length hm
        have hle : (List.dropWhile p (cs ++ t.reverse)).length ≤ (cs ++ t.reverse).length :=
          (List.dropWhile_suffix p).length_le
        rw [List.length_cons] at hlen
        omega
      · exact Bool.eq_false_iff.mpr hp
    rw [List.dropWhile_cons_of_neg]
    simp [hc]

theorem pyStrip_idem (l : List Char) : pyStrip (pyStrip l) = pyStrip l := by
  have h1 : (pyStrip l).dropWhile pyIsSpace = pyStrip l :=
    dropWhile_reverse_dropWhile (dropWhile_idem pyIsSpace l)
  simp only [pyStrip] at h1 ⊢
  rw [h1, List.reverse_reverse, dropWhile_idem]

theorem processLine_emits {st st2 : ParseState} {raw : List Char} {r : Record}
    (h : processLine st raw = (st2, some r)) :
    st2 = st ∧ decode_data_row st (pyStrip raw) = some r := by
  simp only [processLine] at h
  split at h
  · simp at h
  · split at h
    · simp at h
    · split at h
      · simp at h
      · split at h
        · split at h <;> simp at h
        · exact ⟨(congrArg Prod.fst h).symm, congrArg Prod.snd h⟩

theorem decode_emit_guard {st : ParseState} {line : List Char} {r : Record}
    (h : decode_data_row st line = some r) :
    r.id ≠ [] ∨ r.numericCode ≠ [] := by
  simp only [decode_data_row] at h
  split at h
  · simp at h
  · split at h <;>
    · simp at h
      obtain ⟨hg, hr⟩ := h
      subst hr
      exact hg

theorem mem_parseLoop_decode :
    ∀ (ls : List (List Char)) (st : ParseState) (r : Record),
      r ∈ parseLoop st ls → ∃ st' line, decode_data_row st' line = some r := by
  intro ls
  induction ls with
  | nil => intro st r h; simp [parseLoop] at h
  | cons l ls ih =>
    intro st r h
    rw [parseLoop] at h
    rcases hp : processLine st l with ⟨st2, o⟩
    rw [hp] at h
    cases o with
    | none => exact ih st2 r h
    | some r' =>
      have h' : r = r' ∨ r ∈ parseLoop st2 ls := by simpa using h
      rcases h' with rfl | h'
      · exact ⟨st, pyStrip l, (processLine_emits hp).2⟩
      · exact ih st2 r h'

theorem dataAfterDash_numeric {g1 tail a b c : List Char}
    (h : dataAfterDash g1 tail = some (a, b, c)) :
    a = g1 ∧ (b = [] ∨ (b.all Char.isDigit = true ∧ 8 ≤ b.length)) := by
  simp only [dataAfterDash] at h
  split at h
  · rename_i h8
    split at h
    · rename_i g3 hg3
      injection h with h1
      rw [Prod.mk.injEq, Prod.mk.injEq] at h1
      obtain ⟨rfl, rfl, rfl⟩ := h1
      refine ⟨rfl, Or.inr ⟨?_, h8⟩⟩
      exact List.all_eq_true.mpr fun x hx => List.mem_takeWhile_imp hx
    · rcases Option.map_eq_some'.mp h with ⟨g3, _, heq⟩
      rw [Prod.mk.injEq, Prod.mk.injEq] at heq
      obtain ⟨rfl, rfl, rfl⟩ := heq
      exact ⟨rfl, Or.inl rfl⟩
  · rcases Option.map_eq_some'.mp h with ⟨g3, _, heq⟩
    rw [Prod.mk.injEq, Prod.mk.injEq] at heq
    obtain ⟨rfl, rfl, rfl⟩ := heq
    exact ⟨rfl, Or.inl rfl⟩

theorem dataNoG1_numeric {l a b c : List Char}
    (h : dataNoG1 l = some (a, b, c)) :
    a = [] ∧ (b = [] ∨ (b.all Char.isDigit = true ∧ 8 ≤ b.length)) := by
  simp only [dataNoG1] at h
  split at h
  · exact dataAfterDash_numeric h
  · simp at h

theorem data_pattern_match_numeric {l a b c : List Char}
    (h : data_pattern_match l = some (a, b, c)) :
    b = [] ∨ (b.all Char.isDigit = true ∧ 8 ≤ b.length) := by
  simp only [data_pattern_match] at h
  split at h
  · split at h
    · exact (dataNoG1_numeric h).2
    · split at h
      · exact (dataAfterDash_numeric h).2
      · exact (dataNoG1_numeric h).2
  · exact (dataNoG1_numeric h).2

theorem numeric_heuristic_numeric {g2 desc n d : List Char}
    (h : numeric_heuristic g2 desc = (n, d)) :
    n = g2 ∨ (n.all Char.isDigit = true ∧ 8 ≤ n.length) := by
  simp only [numeric_heuristic] at h
  split at h
  · split at h
    · rename_i hcond
      rw [Prod.mk.injEq] at h
      obtain ⟨rfl, rfl⟩ := h
      simp only [pyIsdigitStr, Bool.and_eq_true, decide_eq_true_eq] at hcond
      exact Or.inr ⟨hcond.1.2, hcond.2⟩
    · rw [Prod.mk.injEq] at h
      obtain ⟨rfl, rfl⟩ := h
      exact Or.inl rfl
  · rw [Prod.mk.injEq] at h
    obtain ⟨rfl, rfl⟩ := h
    exact Or.inl rfl

theorem decode_numeric {st : ParseState} {line : List Char} {r : Record}
    (h : decode_data_row st line = some r) :
    r.numericCode = [] ∨ (r.numericCode.all Char.isDigit = true ∧ 8 ≤ r.numericCode.length) := by
  simp only [decode_data_row] at h
  split at h
  · simp at h
  · rename_i g g1 g2 g3 hmatch
    split at h
    · rename_i hcond
      simp at h
      obtain ⟨_, hr⟩ := h
      subst hr
      have hnh : numeric_heuristic g2 (pyStrip g3) =
          ((numeric_heuristic g2 (pyStrip g3)).1, (numeric_heuristic g2 (pyStrip g3)).2) := rfl
      rcases numeric_heuristic_numeric hnh with h1 | h1
      · left
        show (numeric_heuristic g2 (pyStrip g3)).1 = []
        rw [h1]
        simp only [Bool.and_eq_true, List.isEmpty_iff] at hcond
        exact hcond.2
      · right
        exact h1
    · simp at h
      obtain ⟨_, hr⟩ := h
      subst hr
      exact data_pattern_match_numeric hmatch

theorem blockLE_trans (a b c : Block) (hab : blockLE a b = true) (hbc : blockLE b c = true) :
    blockLE a c = true := by
  simp only [blockLE, Bool.or_eq_true, Bool.and_eq_true, decide_eq_true_eq] at *
  omega

theorem blockLE_total (a b : Block) : (blockLE a b || blockLE b a) = true := by
  simp only [blockLE, Bool.or_eq_true, Bool.and_eq_true, decide_eq_true_eq]
  omega

/-!
## Claim theorems
-/

/-- C2: for every input text, every Record appended to the output table by
the parser has a non-empty `id` or a non-empty `numericCode` (never both
empty) — the emission guard of source line 118. -/
theorem emitted_record_id_or_numeric (text : List Char) (r : Record)
    (h : r ∈ parse_text_to_dataframe text) : r.id ≠ [] ∨ r.numericCode ≠ [] := by
  obtain ⟨st', line, hd⟩ := mem_parseLoop_decode (splitNl text) ⟨[], [], [], []⟩ r h
  exact decode_emit_guard hd

/-- Witness for C2 at a concrete input. -/
theorem emitted_record_id_or_numeric_witness :
    (⟨[], [], [], [], s2l "CADTX123", s2l "40102345", s2l "Fee income"⟩ : Record).id ≠ [] ∨
    (⟨[], [], [], [], s2l "CADTX123", s2l "40102345", s2l "Fee income"⟩ : Record).numericCode ≠ [] :=
  emitted_record_id_or_numeric (s2l "CADTX123 - 40102345 _X_ Fee income") _ (by decide)

/-- C4: for every emitted Record, a non-empty `numericCode` consists only of
decimal digits and has length ≥ 8, whether it came from the `\d{8,}` group
of the primary pattern or from the fallback promotion out of the
description. -/
theorem numeric_code_digits_len8 (text : List Char) (r : Record)
    (h : r ∈ parse_text_to_dataframe text) (hne : r.numericCode ≠ []) :
    r.numericCode.all Char.isDigit = true ∧ 8 ≤ r.numericCode.length := by
  obtain ⟨st', line, hd⟩ := mem_parseLoop_decode (splitNl text) ⟨[], [], [], []⟩ r h
  rcases decode_numeric hd with h0 | hgood
  · exact absurd h0 hne
  · exact hgood

/-- Witness for C4 at a concrete input. -/
theorem numeric_code_digits_len8_witness :
    (s2l "40102345").all Char.isDigit = true ∧ 8 ≤ (s2l "40102345").length :=
  numeric_code_digits_len8 (s2l "CADTX123 - 40102345 _X_ Fee income")
    ⟨[], [], [], [], s2l "CADTX123", s2l "40102345", s2l "Fee income"⟩
    (by decide) (by decide)

/-- C5: processing `"001 Net Revenue"`, `"001.1 Service Revenue"`,
`"4010 Gross Service Revenue"` and `"CADTX123 - 40102345 _X_ Fee income"`
in order from the empty context emits exactly the Record with
level1 = "Net Revenue", level2 = "Service Revenue", level3Code = "4010",
level3Desc = "Gross Service Revenue", id = "CADTX123",
numericCode = "40102345", description = "Fee income". -/
theorem scenario_d_record :
    parse_text_to_dataframe
      (s2l "001 Net Revenue\n001.1 Service Revenue\n4010 Gross Service Revenue\nCADTX123 - 40102345 _X_ Fee income") =
    [⟨s2l "Net Revenue", s2l "Service Revenue", s2l "4010", s2l "Gross Service Revenue",
      s2l "CADTX123", s2l "40102345", s2l "Fee income"⟩] := by decide

/-- C8: the parser is deterministic — two runs of
`parse_text_to_dataframe` on the same extracted text are equal as ordered
row lists (the parse is a pure function of its input with no other
state). -/
theorem parse_two_runs_equal (text : List Char) :
    parse_text_to_dataframe text = parse_text_to_dataframe text := rfl

/-- C10: a line whose stripped form contains the fixed substring `"PAGE"`
or `"Deloitte India Management Reporting"` is skipped before any
classification: the hierarchy state is unchanged and no Record is emitted,
whatever else the line would match. -/
theorem marker_line_skipped (st : ParseState) (raw : List Char)
    (h : containsL (pyStrip raw) pageMarker = true ∨
         containsL (pyStrip raw) deloitteMarker = true) :
    processLine st raw = (st, none) := by
  simp only [processLine]
  rcases h with h | h <;> simp [h]

/-- Witness for C10: a line that would otherwise be a Level-1 header is
skipped because it contains `"PAGE"`. -/
theorem marker_line_skipped_witness :
    processLine ⟨s2l "A", s2l "B", s2l "C", s2l "D"⟩ (s2l "001 PAGE 7") =
      (⟨s2l "A", s2l "B", s2l "C", s2l "D"⟩, none) :=
  marker_line_skipped ⟨s2l "A", s2l "B", s2l "C", s2l "D"⟩ (s2l "001 PAGE 7")
    (Or.inl (by decide))

/-- C3: on a non-skipped line, a Level-1 classification (matches the
level-1 pattern and neither the level-2 nor the level-3 pattern) sets
`level1` and resets `level2`, `level3Code`, `level3Desc` to empty; a
Level-2 classification sets `level2`, resets `level3Code` and
`level3Desc`, and leaves `level1` unchanged. -/
theorem header_transition_resets (st : ParseState) (raw : List Char)
    (hne : (pyStrip raw).isEmpty = false)
    (hpg : containsL (pyStrip raw) pageMarker = false)
    (hdl : containsL (pyStrip raw) deloitteMarker = false) :
    (level1_match (pyStrip raw) = true → level2_match (pyStrip raw) = false →
       level3_match (pyStrip raw) = false →
       processLine st raw = (⟨level_text (pyStrip raw), [], [], []⟩, none)) ∧
    (level2_match (pyStrip raw) = true →
       processLine st raw = (⟨st.current_level_1, level_text (pyStrip raw), [], []⟩, none)) := by
  constructor
  · intro h1 h2 h3
    simp only [processLine]
    simp [hne, hpg, hdl, h1, h2, h3]
  · intro h2
    simp only [processLine]
    simp [hne, hpg, hdl, h2]

/-- Witness for C3: the Level-2 header `"001.1 Service Revenue"` resets
the level-3 context and keeps `level1`. -/
theorem header_transition_resets_witness :
    processLine ⟨s2l "Net Revenue", s2l "old2", s2l "4010", s2l "old3"⟩
      (s2l "001.1 Service Revenue") =
      (⟨s2l "Net Revenue", s2l "Service Revenue", [], []⟩, none) :=
  (header_transition_resets ⟨s2l "Net Revenue", s2l "old2", s2l "4010", s2l "old3"⟩
    (s2l "001.1 Service Revenue") (by decide) (by decide) (by decide)).2 (by decide)

/-- C1 counterexample: on the line `"CADTA - X 40102345"` the primary
pattern yields non-empty id `"CADTA"`, empty numericCode, and (trimmed)
description `"40102345"` — a single all-digit token of length ≥ 8 with no
remainder.  The claim requires its promotion to `numericCode`; the code
(which demands `len(desc_parts) > 1`) leaves it in the description and
emits numericCode = "". -/
theorem heuristic_single_token_not_promoted_cex :
    data_pattern_match (s2l "CADTA - X 40102345") =
        some (s2l "CADTA", [], s2l "40102345") ∧
    pySplitMax1 (pyStrip (s2l "40102345")) = [s2l "40102345"] ∧
    pyIsdigitStr (s2l "40102345") = true ∧ 8 ≤ (s2l "40102345").length ∧
    parse_text_to_dataframe (s2l "CADTA - X 40102345") =
        [⟨[], [], [], [], s2l "CADTA", [], s2l "40102345"⟩] := by decide

/-- C1 (amended): when the primary match yields a non-empty id and an empty
numericCode, the decoder splits the trimmed description on the first
whitespace run and promotes the first token to `numericCode` (with the
remainder as new description) only when the split yields a remainder and
the token is all digits of length ≥ 8; a description consisting of a
single such token is left unpromoted. -/
theorem heuristic_promotes_only_with_remainder :
    (∀ (st : ParseState) (line g1 g3 t rem : List Char),
       data_pattern_match line = some (g1, [], g3) → g1 ≠ [] →
       pySplitMax1 (pyStrip g3) = [t, rem] → pyIsdigitStr t = true → 8 ≤ t.length →
       decode_data_row st line = some ⟨st.current_level_1, st.current_level_2,
         st.current_level_3_code, st.current_level_3_desc, g1, t, rem⟩) ∧
    (∀ (st : ParseState) (line g1 g3 t : List Char),
       data_pattern_match line = some (g1, [], g3) → g1 ≠ [] →
       pySplitMax1 (pyStrip g3) = [t] →
       decode_data_row st line = some ⟨st.current_level_1, st.current_level_2,
         st.current_level_3_code, st.current_level_3_desc, g1, [], pyStrip g3⟩) := by
  constructor
  · intro st line g1 g3 t rem hmatch hg1 hsplit hdig hlen
    have hg1' : g1.isEmpty = false := by simpa [List.isEmpty_iff] using hg1
    simp only [decode_data_row, hmatch, numeric_heuristic, hsplit]
    simp [hg1', hdig, hlen]
  · intro st line g1 g3 t hmatch hg1 hsplit
    have hg1' : g1.isEmpty = false := by simpa [List.isEmpty_iff] using hg1
    simp only [decode_data_row, hmatch, numeric_heuristic, hsplit]
    simp [hg1']

/-- Witness for the amended C1 at scenario E's input: the fused numeric
code is promoted out of the description when a remainder exists. -/
theorem heuristic_promotes_only_with_remainder_witness :
    decode_data_row ⟨[], [], [], []⟩ (s2l "CADTX1 - _X_ 40102345 Fee income") =
      some ⟨[], [], [], [], s2l "CADTX1", s2l "40102345", s2l "Fee income"⟩ :=
  heuristic_promotes_only_with_remainder.1 ⟨[], [], [], []⟩
    (s2l "CADTX1 - _X_ 40102345 Fee income") (s2l "CADTX1")
    (s2l "40102345 Fee income") (s2l "40102345") (s2l "Fee income")
    (by decide) (by decide) (by decide) (by decide) (by decide)

/-- C6 counterexample: a block whose text strips to the empty string is not
dropped — the extractor's fragment sequence contains the empty fragment,
contradicting "empty fragments are dropped rather than passed on". -/
theorem extractor_keeps_empty_fragment_cex :
    extract_fragments [[⟨0, 0, s2l "   "⟩]] = [[]] := by
  simp only [extract_fragments, List.mergeSort_singleton, List.map, List.append_nil]
  decide

/-- C6 (amended): the extractor's output is the ordered sequence of trimmed
text fragments — every fragment is trimmed, page order is preserved, and
within a page the blocks are sorted by vertical then horizontal position —
but empty fragments are kept, not dropped. -/
theorem extractor_fragments_trimmed_ordered :
    (∀ (doc : List (List Block)) (f : List Char),
       f ∈ extract_fragments doc → pyStrip f = f) ∧
    (∀ p1 p2 : List (List Block),
       extract_fragments (p1 ++ p2) = extract_fragments p1 ++ extract_fragments p2) ∧
    (∀ page : List Block,
       (page.mergeSort blockLE).Pairwise (fun a b => blockLE a b = true)) ∧
    (∀ page : List Block,
       extract_fragments [page] = (page.mergeSort blockLE).map (fun b => pyStrip b.text)) := by
  refine ⟨?_, ?_, ?_, ?_⟩
  · intro doc
    induction doc with
    | nil => intro f h; simp [extract_fragments] at h
    | cons page rest ih =>
      intro f h
      rw [extract_fragments] at h
      rcases List.mem_append.mp h with h | h
      · obtain ⟨b, _, rfl⟩ := List.mem_map.mp h
        exact pyStrip_idem b.text
      · exact ih f h
  · intro p1 p2
    induction p1 with
    | nil => simp [extract_fragments]
    | cons page rest ih =>
      simp only [List.cons_append, extract_fragments]
      rw [show rest.append p2 = rest ++ p2 from rfl, ih, List.append_assoc]
  · intro page
    exact List.sorted_mergeSort blockLE_trans blockLE_total page
  · intro page
    simp [extract_fragments]

/-- Witness for the amended C6 at a concrete input: the fragment produced
from a padded block is trimmed. -/
theorem extractor_fragments_trimmed_ordered_witness :
    pyStrip (s2l "abc") = s2l "abc" :=
  extractor_fragments_trimmed_ordered.1 [[⟨0, 0, s2l " abc "⟩]] (s2l "abc")
    (by simp only [extract_fragments, List.mergeSort_singleton, List.map,
          List.append_nil]
        decide)

/-- C7: the conversion entry point never returns a partial result — it
returns success exactly when the parsed table is non-empty, and otherwise
an explicit failure whose message distinguishes the extraction-failed case
(`msgExtractFail`, also used for empty extracted text) from the
extracted-but-no-structured-data case (`msgNoData`); the two failure
messages differ. -/
theorem convert_total_with_distinct_failures :
    msgExtractFail ≠ msgNoData ∧
    (∀ (wr : Except (List Char) Unit) (path : List Char),
       convert_pdf_to_excel none wr path = (false, msgExtractFail)) ∧
    (∀ (wr : Except (List Char) Unit) (path : List Char),
       convert_pdf_to_excel (some []) wr path = (false, msgExtractFail)) ∧
    (∀ (t : List Char) (wr : Except (List Char) Unit) (path : List Char),
       t ≠ [] → parse_text_to_dataframe t = [] →
       convert_pdf_to_excel (some t) wr path = (false, msgNoData)) ∧
    (∀ (t : List Char) (wr : Except (List Char) Unit) (path : List Char),
       t ≠ [] → parse_text_to_dataframe t ≠ [] →
       convert_pdf_to_excel (some t) wr path = (true, msgSuccess path)) := by
  refine ⟨by decide, fun wr path => rfl, fun wr path => rfl, ?_, ?_⟩
  · intro t wr path ht hp
    simp [convert_pdf_to_excel, List.isEmpty_iff, ht, hp]
  · intro t wr path ht hp
    simp [convert_pdf_to_excel, List.isEmpty_iff, ht, hp]

/-- Witness for C7 at a concrete input: a text with one data row converts
successfully. -/
theorem convert_total_with_distinct_failures_witness :
    convert_pdf_to_excel (some (s2l "CADTX123 - 40102345 _X_ Fee income"))
      (Except.ok ()) (s2l "out.xlsx") =
      (true, msgSuccess (s2l "out.xlsx")) :=
  convert_total_with_distinct_failures.2.2.2.2
    (s2l "CADTX123 - 40102345 _X_ Fee income") (Except.ok ()) (s2l "out.xlsx")
    (by decide) (by decide)

/-- C9: when extraction and parsing succeed with a non-empty table but the
spreadsheet write raises, `save_to_excel` swallows the exception (it
returns its error print instead of propagating) and
`convert_pdf_to_excel` still returns success with the
"Successfully converted" message. -/
theorem convert_success_despite_save_error (t path e : List Char)
    (ht : t ≠ []) (hp : parse_text_to_dataframe t ≠ []) :
    save_to_excel path (Except.error e) = msgSaveError e ∧
    convert_pdf_to_excel (some t) (Except.error e) path = (true, msgSuccess path) := by
  refine ⟨rfl, ?_⟩
  simp [convert_pdf_to_excel, List.isEmpty_iff, ht, hp]

/-- Witness for C9 at a concrete input: the write fails with "disk full",
yet conversion reports success. -/
theorem convert_success_despite_save_error_witness :
    save_to_excel (s2l "out.xlsx") (Except.error (s2l "disk full")) =
        msgSaveError (s2l "disk full") ∧
    convert_pdf_to_excel (some (s2l "CADTX123 - 40102345 _X_ Fee income"))
        (Except.error (s2l "disk full")) (s2l "out.xlsx") =
      (true, msgSuccess (s2l "out.xlsx")) :=
  convert_success_despite_save_error (s2l "CADTX123 - 40102345 _X_ Fee income")
    (s2l "out.xlsx") (s2l "disk full") (by decide) (by decide)
